import Mathlib

/-! Verification of the GripDL multi-segment HTTP download engine: a shallow
embedding of the segment planner, the dispatch decision, the segment worker
chunk loop, the persistence layer and the control-plane calls from
src-tauri/src/downloader.rs and src-tauri/src/persistence.rs, with theorems
settling the properties the specification states about them. -/

/-- Constant MAX_SEGMENTS in downloader.rs line 18. -/
def MAX_SEGMENTS : Nat := 32

/-- Constant MIN_SEGMENT_SIZE in downloader.rs line 19: 1 MiB minimum per segment. -/
def MIN_SEGMENT_SIZE : Nat := 1024 * 1024

/-- calculate_segments in downloader.rs lines 235-238:
MAX_SEGMENTS.min(total_size / MIN_SEGMENT_SIZE) followed by .max(1). -/
def calculate_segments (total_size : Nat) : Nat :=
  Nat.max (Nat.min MAX_SEGMENTS (total_size / MIN_SEGMENT_SIZE)) 1

/-- The start offset of segment i in download_segmented, downloader.rs line 257:
i * segment_size with segment_size = total_size / num_segments (line 249). -/
def seg_start (total_size num_segments i : Nat) : Nat :=
  i * (total_size / num_segments)

/-- The inclusive end offset of segment i in download_segmented, downloader.rs
lines 258-262: total_size - 1 for the last segment, (i+1) * segment_size - 1
otherwise. -/
def seg_end (total_size num_segments i : Nat) : Nat :=
  if i = num_segments - 1 then total_size - 1
  else (i + 1) * (total_size / num_segments) - 1

/-- DownloadStatus in downloader.rs lines 21-29. -/
inductive DownloadStatus where
  | Pending
  | Downloading
  | Paused
  | Completed
  | Failed (reason : String)
  | Cancelled
deriving DecidableEq

/-- DownloadInfo in downloader.rs lines 31-45; the PathBuf field is embedded as
its string form. -/
structure DownloadInfo where
  id : String
  url : String
  file_path : String
  file_name : String
  total_size : Option Nat
  downloaded_size : Nat
  status : DownloadStatus
  cookies : Option String
  referrer : Option String
  user_agent : Option String
  created_at : Int
  updated_at : Int
deriving DecidableEq

/-- One row of the downloads table in persistence.rs lines 33-46: the status is
stored as a string, all other columns hold the corresponding field. -/
structure DownloadRow where
  id : String
  url : String
  file_path : String
  file_name : String
  total_size : Option Nat
  downloaded_size : Nat
  status : String
  cookies : Option String
  referrer : Option String
  user_agent : Option String
  created_at : Int
  updated_at : Int
deriving DecidableEq

/-- The status serialization match in save_download, persistence.rs lines 69-76. -/
def status_to_string : DownloadStatus → String
  | DownloadStatus.Pending => "pending"
  | DownloadStatus.Downloading => "downloading"
  | DownloadStatus.Paused => "paused"
  | DownloadStatus.Completed => "completed"
  | DownloadStatus.Failed _ => "failed"
  | DownloadStatus.Cancelled => "cancelled"

/-- The status rehydration match in load_downloads, persistence.rs lines
111-119: failed becomes Failed "Unknown error" and any unrecognized tag falls
to the wildcard arm, which yields Pending. -/
def status_of_string (s : String) : DownloadStatus :=
  if s = "pending" then DownloadStatus.Pending
  else if s = "downloading" then DownloadStatus.Downloading
  else if s = "paused" then DownloadStatus.Paused
  else if s = "completed" then DownloadStatus.Completed
  else if s = "failed" then DownloadStatus.Failed "Unknown error"
  else if s = "cancelled" then DownloadStatus.Cancelled
  else DownloadStatus.Pending

/-- The row written by save_download, persistence.rs lines 78-96. -/
def encodeRow (info : DownloadInfo) : DownloadRow :=
  { id := info.id
    url := info.url
    file_path := info.file_path
    file_name := info.file_name
    total_size := info.total_size
    downloaded_size := info.downloaded_size
    status := status_to_string info.status
    cookies := info.cookies
    referrer := info.referrer
    user_agent := info.user_agent
    created_at := info.created_at
    updated_at := info.updated_at }

/-- The record rebuilt from one row by load_downloads, persistence.rs lines
109-135. -/
def decodeRow (row : DownloadRow) : DownloadInfo :=
  { id := row.id
    url := row.url
    file_path := row.file_path
    file_name := row.file_name
    total_size := row.total_size
    downloaded_size := row.downloaded_size
    status := status_of_string row.status
    cookies := row.cookies
    referrer := row.referrer
    user_agent := row.user_agent
    created_at := row.created_at
    updated_at := row.updated_at }

/-- save_download in persistence.rs lines 66-99: INSERT OR REPLACE keyed on the
primary key id, embedded as replacing any row with the same id. -/
def save_download (store : List DownloadRow) (info : DownloadInfo) : List DownloadRow :=
  encodeRow info :: store.filter (fun r => r.id ≠ info.id)

/-- load_downloads in persistence.rs lines 101-143: every stored row is decoded
and returned. -/
def load_downloads (store : List DownloadRow) : List DownloadInfo :=
  store.map decodeRow

/-- get_download_info in downloader.rs lines 487-493: load all rows and find
the one with the given id. -/
def getDownloadInfo (store : List DownloadRow) (id : String) : Option DownloadInfo :=
  (load_downloads store).find? (fun d => d.id = id)

/-- The configuration of the reqwest client produced by build_client,
downloader.rs lines 404-431: the user agent, whether automatic referer
handling was enabled, and the Cookie header installed on every request of the
client (none when no cookie configuration happened). -/
structure ClientConfig where
  user_agent : String
  referer_enabled : Bool
  cookie_header : Option String
deriving DecidableEq

/-- build_client in downloader.rs lines 404-431: a given user agent is set,
otherwise "GripDL/1.0"; a given referrer only enables builder.referer(true);
the cookies branch (lines 425-428) contains no builder call, so no Cookie
header is configured. -/
def build_client (cookies referrer user_agent : Option String) : ClientConfig :=
  let ua := match user_agent with
    | some u => u
    | none => "GripDL/1.0"
  let referer_on := match referrer with
    | some _ => true
    | none => false
  -- the cookies argument is matched in the source but its branch is empty
  match cookies with
  | some _ => { user_agent := ua, referer_enabled := referer_on, cookie_header := none }
  | none => { user_agent := ua, referer_enabled := referer_on, cookie_header := none }

/-- A GET request as issued by the engine: its url and its Range header. -/
structure GetRequest where
  url : String
  range : Option String
deriving DecidableEq

/-- The request of download_single_threaded, downloader.rs line 372:
client.get(url).send() with no Range header. -/
def single_threaded_request (url : String) : GetRequest :=
  { url := url, range := none }

/-- The request of download_segment, downloader.rs lines 318-323:
client.get(url) with header Range: bytes=start-end. -/
def segment_request (url : String) (start endpos : Nat) : GetRequest :=
  { url := url, range := some ("bytes=" ++ toString start ++ "-" ++ toString endpos) }

/-- supports_range in download_file, downloader.rs lines 204-209: the
accept-ranges header value (when readable as a string) compared with "bytes",
defaulting to false. -/
def supports_range (accept_ranges : Option String) : Bool :=
  (accept_ranges.map (fun s => s == "bytes")).getD false

/-- Which fetch path download_file takes. -/
inductive FetchPath where
  | single
  | segmented (num_segments : Nat)
deriving DecidableEq

/-- The dispatch in download_file, downloader.rs lines 218-232: single-stream
when range support is absent or the size is unknown; otherwise single-stream
when calculate_segments yields at most 1, else segmented with that count. -/
def choose_path (accept_ranges : Option String) (total_size : Option Nat) : FetchPath :=
  if !(supports_range accept_ranges) || total_size.isNone then FetchPath.single
  else
    match total_size with
    | none => FetchPath.single
    | some t =>
      if calculate_segments t ≤ 1 then FetchPath.single
      else FetchPath.segmented (calculate_segments t)

/-- The OpenOptions flags a file can be opened with. -/
structure OpenOptionsFlags where
  create : Bool
  write : Bool
  append : Bool
  truncate : Bool
deriving DecidableEq

/-- The options download_segment opens its part-file with, downloader.rs lines
312-316: OpenOptions::new().create(true).write(true), nothing else set. -/
def segment_open_options : OpenOptionsFlags :=
  { create := true, write := true, append := false, truncate := false }

/-- Content of a file that previously held prev after it is opened with flags
o and the bytes data are written through the handle: standard open and write
semantics, truncate empties the file first, append places the cursor at the
old end, and otherwise writing starts at offset 0 over the existing bytes. -/
def content_after_open_write (o : OpenOptionsFlags) (prev data : List Nat) : List Nat :=
  let base := if o.truncate then [] else prev
  if o.append then base ++ data
  else data ++ base.drop data.length

/-- The chunk loop of download_segment, downloader.rs lines 325-341: downloaded
starts at the given accumulator, each chunk adds its length, and a progress
publication (a persistence save plus an emitted event) happens exactly when the
source condition downloaded % (1024 * 1024) == 0 holds after the chunk.
Returns the final downloaded count and the downloaded values at each
publication, in order. -/
def segment_progress_loop : List Nat → Nat → Nat × List Nat
  | [], downloaded => (downloaded, [])
  | c :: rest, downloaded =>
    let d := downloaded + c
    let r := segment_progress_loop rest d
    if d % (1024 * 1024) = 0 then (r.1, d :: r.2) else r

/-- One run of the download_segment chunk loop from a zero counter. -/
def download_segment_run (chunks : List Nat) : Nat × List Nat :=
  segment_progress_loop chunks 0

/-- The cumulative byte totals after each chunk, starting from acc. -/
def running_totals : List Nat → Nat → List Nat
  | [], _ => []
  | c :: rest, acc => (acc + c) :: running_totals rest (acc + c)

/-- DownloadCommand in downloader.rs lines 61-65. -/
inductive DownloadCommand where
  | Pause
  | Resume
  | Cancel
deriving DecidableEq

/-- The state a control-plane call touches: the ids present in the live
registry (active_downloads) and the persisted rows. -/
structure ManagerState where
  registry : List String
  store : List DownloadRow
deriving DecidableEq

/-- The observable effects of one control-plane call: the commands delivered
into the control channel, the records written to persistence, the records
emitted as download-update events, and whether the call returned Ok. -/
structure CallEffects where
  sent : List DownloadCommand
  persisted : List DownloadInfo
  emitted : List DownloadInfo
  ok : Bool
deriving DecidableEq

/-- pause_download in downloader.rs lines 439-453: when the id is in the live
registry, send Pause, load the record, set status Paused, refresh updated_at,
save it and emit it; otherwise fall through to Ok. The unwrap on
get_download_info is embedded as the none outcome. -/
def pause_download (st : ManagerState) (id : String) (now : Int) :
    Option (ManagerState × CallEffects) :=
  if st.registry.contains id then
    match getDownloadInfo st.store id with
    | none => none
    | some info0 =>
      let info := { info0 with status := DownloadStatus.Paused, updated_at := now }
      some ({ st with store := save_download st.store info },
            { sent := [DownloadCommand.Pause], persisted := [info],
              emitted := [info], ok := true })
  else
    some (st, { sent := [], persisted := [], emitted := [], ok := true })

/-- resume_download in downloader.rs lines 455-469: as pause_download with
Resume and status Downloading. -/
def resume_download (st : ManagerState) (id : String) (now : Int) :
    Option (ManagerState × CallEffects) :=
  if st.registry.contains id then
    match getDownloadInfo st.store id with
    | none => none
    | some info0 =>
      let info := { info0 with status := DownloadStatus.Downloading, updated_at := now }
      some ({ st with store := save_download st.store info },
            { sent := [DownloadCommand.Resume], persisted := [info],
              emitted := [info], ok := true })
  else
    some (st, { sent := [], persisted := [], emitted := [], ok := true })

/-- cancel_download in downloader.rs lines 471-485: as pause_download with
Cancel and status Cancelled. -/
def cancel_download (st : ManagerState) (id : String) (now : Int) :
    Option (ManagerState × CallEffects) :=
  if st.registry.contains id then
    match getDownloadInfo st.store id with
    | none => none
    | some info0 =>
      let info := { info0 with status := DownloadStatus.Cancelled, updated_at := now }
      some ({ st with store := save_download st.store info },
            { sent := [DownloadCommand.Cancel], persisted := [info],
              emitted := [info], ok := true })
  else
    some (st, { sent := [], persisted := [], emitted := [], ok := true })

/-- A concrete record used to exercise the persistence and control-plane
embeddings on explicit inputs. -/
def sampleInfo : DownloadInfo :=
  { id := "d1"
    url := "http://example.com/f.bin"
    file_path := "/downloads/f.bin"
    file_name := "f.bin"
    total_size := some 100
    downloaded_size := 0
    status := DownloadStatus.Downloading
    cookies := none
    referrer := none
    user_agent := none
    created_at := 1
    updated_at := 1 }

/-- A manager state where download d1 is live and persisted. -/
def sampleState : ManagerState :=
  { registry := ["d1"], store := [encodeRow sampleInfo] }

/-- The record the pause call writes for d1 at time 5. -/
def samplePaused : DownloadInfo :=
  { sampleInfo with status := DownloadStatus.Paused, updated_at := 5 }

/-- A stored row whose status tag is not one of the six known tags. -/
def corruptRow : DownloadRow :=
  { id := "d9"
    url := "http://example.com/g.bin"
    file_path := "/downloads/g.bin"
    file_name := "g.bin"
    total_size := none
    downloaded_size := 0
    status := "bogus"
    cookies := none
    referrer := none
    user_agent := none
    created_at := 0
    updated_at := 0 }

/-- The planner always yields at least one segment. -/
lemma calculate_segments_pos (t : Nat) : 1 ≤ calculate_segments t :=
  Nat.le_max_right _ 1

/-- With more than one segment planned, each segment is at least
MIN_SEGMENT_SIZE bytes long. -/
lemma seg_size_lower (t : Nat) (h : 1 < calculate_segments t) :
    MIN_SEGMENT_SIZE ≤ t / calculate_segments t := by
  have hq : calculate_segments t ≤ t / MIN_SEGMENT_SIZE := by
    unfold calculate_segments MAX_SEGMENTS at h ⊢
    simp only [Nat.min_def, Nat.max_def] at h ⊢
    split_ifs at h ⊢ <;> omega
  have hpos : 0 < calculate_segments t :=
    lt_of_lt_of_le Nat.zero_lt_one (calculate_segments_pos t)
  rw [Nat.le_div_iff_mul_le hpos]
  calc MIN_SEGMENT_SIZE * calculate_segments t
      ≤ MIN_SEGMENT_SIZE * (t / MIN_SEGMENT_SIZE) := Nat.mul_le_mul_left _ hq
    _ = t / MIN_SEGMENT_SIZE * MIN_SEGMENT_SIZE := Nat.mul_comm _ _
    _ ≤ t := Nat.div_mul_le_self t MIN_SEGMENT_SIZE

/-- Claim C2: the planner computes N = max(1, min(32, floor(total_size / 2^20)));
hence 1 <= N <= 32, and N > 1 forces total_size >= 2 * 2^20 bytes. -/
theorem planner_count_formula (total_size : Nat) :
    calculate_segments total_size = max 1 (min 32 (total_size / 1048576)) ∧
    1 ≤ calculate_segments total_size ∧
    calculate_segments total_size ≤ 32 ∧
    (1 < calculate_segments total_size → 2 * 1048576 ≤ total_size) := by
  unfold calculate_segments MAX_SEGMENTS MIN_SEGMENT_SIZE
  simp only [Nat.min_def, Nat.max_def, ge_iff_le, max_def, min_def]
  split_ifs <;> refine ⟨by omega, by omega, by omega, by omega⟩

/-- Claim C1: whenever the planner yields N > 1 segments for total_size, the
planned segments partition the byte range contiguously and without overlap:
segment 0 starts at 0, each next segment starts one past the previous end, the
last segment ends at total_size - 1, the segment lengths sum to total_size,
and every non-final segment i spans i*floor(total_size/N) to
(i+1)*floor(total_size/N) - 1. -/
theorem segments_partition (t n : Nat) (hn : n = calculate_segments t)
    (h1 : 1 < n) :
    seg_start t n 0 = 0 ∧
    (∀ i, i < n - 1 → seg_start t n (i + 1) = seg_end t n i + 1) ∧
    seg_end t n (n - 1) = t - 1 ∧
    (∑ i ∈ Finset.range n, (seg_end t n i - seg_start t n i + 1)) = t ∧
    (∀ i, i < n - 1 →
      seg_start t n i = i * (t / n) ∧ seg_end t n i = (i + 1) * (t / n) - 1) := by
  have hs : 1 ≤ t / n := by
    have hlow := seg_size_lower t (hn ▸ h1)
    rw [← hn] at hlow
    have : (1 : Nat) ≤ MIN_SEGMENT_SIZE := by norm_num [MIN_SEGMENT_SIZE]
    omega
  have hmul : n * (t / n) ≤ t := by
    rw [Nat.mul_comm]
    exact Nat.div_mul_le_self t n
  refine ⟨by simp [seg_start], ?_, by simp [seg_end], ?_, ?_⟩
  · intro i hi
    have hne : i ≠ n - 1 := by omega
    simp only [seg_start, seg_end, if_neg hne]
    have hA : 0 < (i + 1) * (t / n) := Nat.mul_pos (by omega) (by omega)
    omega
  · have hlast : n - 1 + 1 = n := by omega
    have hterm : ∀ i ∈ Finset.range (n - 1),
        seg_end t n i - seg_start t n i + 1 = t / n := by
      intro i hi
      rw [Finset.mem_range] at hi
      have hne : i ≠ n - 1 := by omega
      simp only [seg_start, seg_end, if_neg hne]
      have hA : i * (t / n) + t / n = (i + 1) * (t / n) := by ring
      omega
    calc (∑ i ∈ Finset.range n, (seg_end t n i - seg_start t n i + 1))
        = ∑ i ∈ Finset.range (n - 1 + 1), (seg_end t n i - seg_start t n i + 1) := by
          rw [hlast]
      _ = (∑ i ∈ Finset.range (n - 1), (seg_end t n i - seg_start t n i + 1))
            + (seg_end t n (n - 1) - seg_start t n (n - 1) + 1) :=
          Finset.sum_range_succ _ _
      _ = (n - 1) * (t / n) + (seg_end t n (n - 1) - seg_start t n (n - 1) + 1) := by
          rw [Finset.sum_congr rfl hterm, Finset.sum_const, Finset.card_range,
            smul_eq_mul]
      _ = t := by
          have hend : seg_end t n (n - 1) = t - 1 := by simp [seg_end]
          have hstart : seg_start t n (n - 1) = (n - 1) * (t / n) := rfl
          rw [hend, hstart]
          have hB : (n - 1) * (t / n) = n * (t / n) - t / n := Nat.sub_one_mul n (t / n)
          have hC : t / n ≤ n * (t / n) := Nat.le_mul_of_pos_left (t / n) (by omega)
          omega
  · intro i hi
    have hne : i ≠ n - 1 := by omega
    exact ⟨rfl, by simp only [seg_end, if_neg hne]⟩

/-- Witness for the partition theorem at the 10 MiB example of the
specification, where the planner yields 10 segments. -/
theorem segments_partition_witness :
    seg_start 10485760 10 0 = 0 ∧ seg_end 10485760 10 (10 - 1) = 10485760 - 1 := by
  have h := segments_partition 10485760 10 (by decide) (by decide)
  exact ⟨h.1, h.2.2.1⟩

/-- Rehydration of a serialized status: every tag round-trips to the same
status except failed, whose reason collapses to Unknown error. -/
lemma status_roundtrip (st : DownloadStatus) :
    status_of_string (status_to_string st) =
      match st with
      | DownloadStatus.Failed _ => DownloadStatus.Failed "Unknown error"
      | s => s := by
  cases st <;> rfl

/-- Claim C3: after save(r), load_all returns a list containing an entry equal
to r in every field, except that a Failed status rehydrates as
Failed "Unknown error"; the status is stored as one of the six lowercase
tags. -/
theorem save_load_roundtrip (s : List DownloadRow) (r : DownloadInfo) :
    decodeRow (encodeRow r) ∈ load_downloads (save_download s r) ∧
    decodeRow (encodeRow r) =
      { r with status :=
          match r.status with
          | DownloadStatus.Failed _ => DownloadStatus.Failed "Unknown error"
          | st => st } ∧
    (encodeRow r).status ∈
      ["pending", "downloading", "paused", "completed", "failed", "cancelled"] := by
  refine ⟨?_, ?_, ?_⟩
  · simp [load_downloads, save_download]
  · simp [decodeRow, encodeRow, status_roundtrip]
  · cases hst : r.status <;> simp [encodeRow, status_to_string, hst]

/-- Claim C4: for an id absent from the live registry, each of pause, resume
and cancel sends no command, writes nothing to persistence, emits no event,
leaves the state unchanged and returns Ok. -/
theorem control_calls_absent_noop (st : ManagerState) (id : String) (now : Int)
    (h : st.registry.contains id = false) :
    pause_download st id now = some (st, ⟨[], [], [], true⟩) ∧
    resume_download st id now = some (st, ⟨[], [], [], true⟩) ∧
    cancel_download st id now = some (st, ⟨[], [], [], true⟩) := by
  have h2 : ¬ (st.registry.contains id = true) := by
    rw [h]
    exact Bool.false_ne_true
  refine ⟨?_, ?_, ?_⟩
  · unfold pause_download
    rw [if_neg h2]
  · unfold resume_download
    rw [if_neg h2]
  · unfold cancel_download
    rw [if_neg h2]

/-- Witness for the no-op theorem at an empty registry and the id missing. -/
theorem control_calls_absent_noop_witness :
    pause_download ⟨[], []⟩ "missing" 0 = some (⟨[], []⟩, ⟨[], [], [], true⟩) :=
  (control_calls_absent_noop ⟨[], []⟩ "missing" 0 (by decide)).1

/-- Claim C5 fails on the code: with d1 live in the registry, pause_download
itself performs a persistence write (the persisted log of the call is
non-empty and the store changes), rather than only delivering the command. -/
theorem control_call_writes_persistence_directly :
    (pause_download sampleState "d1" 5).map (fun r => r.2.persisted.length) = some 1 ∧
    (pause_download sampleState "d1" 5).map (fun r => r.1.store) ≠
      some sampleState.store ∧
    (pause_download sampleState "d1" 5).map (fun r => r.2.emitted.length) = some 1 := by
  decide

/-- Claim C5 amended: for an id present in the live registry whose record
loads, each of pause, resume and cancel delivers its command and in addition
itself writes the record with the new status and refreshed updated_at to
persistence and emits it as an event. -/
theorem control_calls_mutate_persistence (st : ManagerState) (id : String)
    (now : Int) (info : DownloadInfo)
    (hreg : st.registry.contains id = true)
    (hinfo : getDownloadInfo st.store id = some info) :
    pause_download st id now =
      some ({ st with store :=
                save_download st.store ({ info with
                  status := DownloadStatus.Paused, updated_at := now }) },
            ⟨[DownloadCommand.Pause],
             [{ info with status := DownloadStatus.Paused, updated_at := now }],
             [{ info with status := DownloadStatus.Paused, updated_at := now }], true⟩) ∧
    resume_download st id now =
      some ({ st with store :=
                save_download st.store ({ info with
                  status := DownloadStatus.Downloading, updated_at := now }) },
            ⟨[DownloadCommand.Resume],
             [{ info with status := DownloadStatus.Downloading, updated_at := now }],
             [{ info with status := DownloadStatus.Downloading, updated_at := now }], true⟩) ∧
    cancel_download st id now =
      some ({ st with store :=
                save_download st.store ({ info with
                  status := DownloadStatus.Cancelled, updated_at := now }) },
            ⟨[DownloadCommand.Cancel],
             [{ info with status := DownloadStatus.Cancelled, updated_at := now }],
             [{ info with status := DownloadStatus.Cancelled, updated_at := now }], true⟩) := by
  refine ⟨?_, ?_, ?_⟩
  · unfold pause_download
    rw [if_pos hreg, hinfo]
  · unfold resume_download
    rw [if_pos hreg, hinfo]
  · unfold cancel_download
    rw [if_pos hreg, hinfo]

/-- Witness for the amended control-plane theorem at the concrete live
state. -/
theorem control_calls_mutate_persistence_witness :
    pause_download sampleState "d1" 5 =
      some ({ sampleState with store := save_download sampleState.store samplePaused },
            ⟨[DownloadCommand.Pause], [samplePaused], [samplePaused], true⟩) :=
  (control_calls_mutate_persistence sampleState "d1" 5 sampleInfo
    (by decide) (by decide)).1

/-- Claim C10: a stored row whose status tag is unrecognized rehydrates, with
no error, to the same record with status Pending. -/
theorem unknown_status_rehydrates_pending (s : List DownloadRow) (row : DownloadRow)
    (hmem : row ∈ s)
    (h1 : row.status ≠ "pending") (h2 : row.status ≠ "downloading")
    (h3 : row.status ≠ "paused") (h4 : row.status ≠ "completed")
    (h5 : row.status ≠ "failed") (h6 : row.status ≠ "cancelled") :
    decodeRow row ∈ load_downloads s ∧
    decodeRow row =
      { id := row.id, url := row.url, file_path := row.file_path,
        file_name := row.file_name, total_size := row.total_size,
        downloaded_size := row.downloaded_size, status := DownloadStatus.Pending,
        cookies := row.cookies, referrer := row.referrer,
        user_agent := row.user_agent, created_at := row.created_at,
        updated_at := row.updated_at } := by
  constructor
  · exact List.mem_map_of_mem decodeRow hmem
  · simp [decodeRow, status_of_string, h1, h2, h3, h4, h5, h6]

/-- Witness for the unknown-tag theorem at a row whose status is bogus. -/
theorem unknown_status_rehydrates_pending_witness :
    decodeRow corruptRow ∈ load_downloads [corruptRow] ∧
    (decodeRow corruptRow).status = DownloadStatus.Pending := by
  have h := unknown_status_rehydrates_pending [corruptRow] corruptRow
    (by decide) (by decide) (by decide) (by decide) (by decide) (by decide) (by decide)
  exact ⟨h.1, by rw [h.2]⟩

/-- Claim C6 fails on the code: the part-file open options of download_segment
set create and write but not truncate, so a pre-existing longer part-file
keeps its stale trailing bytes after the segment bytes are written. With
previous content of five bytes 9 and a three-byte segment body of 7, the file
ends as 7 7 7 9 9, not 7 7 7. -/
theorem segment_open_keeps_stale_bytes :
    segment_open_options.truncate = false ∧
    content_after_open_write segment_open_options [9, 9, 9, 9, 9] [7, 7, 7] =
      [7, 7, 7, 9, 9] ∧
    content_after_open_write segment_open_options [9, 9, 9, 9, 9] [7, 7, 7] ≠
      [7, 7, 7] := by
  decide

/-- Claim C7 fails on the code: build_client called with a cookie string
configures no Cookie header at all (its cookies branch is an empty stub), so
requests issued by the client do not carry the cookie string. -/
theorem build_client_drops_cookies :
    (build_client (some "session=abc") none none).cookie_header = none ∧
    (build_client (some "session=abc") none none).cookie_header ≠
      some "session=abc" ∧
    (build_client (some "session=abc") none none).user_agent = "GripDL/1.0" := by
  decide

/-- Claim C8: range support is computed true exactly when the Accept-Ranges
header is present and equals the string bytes; the engine takes the
single-stream path exactly when range support is false, the size is absent,
or the planner yields one segment, and otherwise the segmented path with the
planner count; the single-stream request carries no Range header. -/
theorem probe_dispatch (accept_ranges : Option String) (total_size : Option Nat) :
    (supports_range accept_ranges = true ↔ accept_ranges = some "bytes") ∧
    (choose_path accept_ranges total_size = FetchPath.single ↔
      supports_range accept_ranges = false ∨ total_size = none ∨
        (∃ t, total_size = some t ∧ calculate_segments t = 1)) ∧
    (∀ t, total_size = some t → supports_range accept_ranges = true →
      1 < calculate_segments t →
      choose_path accept_ranges total_size =
        FetchPath.segmented (calculate_segments t)) ∧
    (∀ url, single_threaded_request url = { url := url, range := none }) := by
  refine ⟨?_, ?_, ?_, fun url => rfl⟩
  · cases accept_ranges with
    | none => simp [supports_range]
    | some s => simp [supports_range]
  · cases total_size with
    | none => simp [choose_path]
    | some t =>
      by_cases hr : supports_range accept_ranges = true
      · have h1 := calculate_segments_pos t
        by_cases hc : calculate_segments t ≤ 1
        · have he : calculate_segments t = 1 := by omega
          simp [choose_path, hr, hc, he]
        · simp only [choose_path, hr, Bool.not_true, Option.isNone_some,
            Bool.or_self, Bool.false_eq_true, if_false, if_neg hc]
          constructor
          · intro hfalse
            exact absurd hfalse (by simp)
          · rintro (h | h | ⟨t2, ht2, hcalc⟩)
            · exact absurd h (by simp)
            · exact absurd h (by simp)
            · rw [Option.some.injEq] at ht2
              subst ht2
              omega
      · rw [Bool.not_eq_true] at hr
        simp [choose_path, hr]
  · intro t ht hsup hgt
    subst ht
    have hcond : (!(supports_range accept_ranges) || (some t).isNone) = false := by
      simp [hsup]
    unfold choose_path
    rw [hcond]
    simp only [Bool.false_eq_true, if_false]
    rw [if_neg (by omega)]

/-- Claim C9 fails on the code: the worker publishes only when the cumulative
counter is an exact multiple of 1 MiB. A single chunk of 1048577 bytes
crosses the 1048576 boundary, so the claim requires a publication, yet the
run publishes nothing. -/
theorem progress_update_misses_boundary :
    0 < 1048576 ∧ 1048576 % 1048576 = 0 ∧
    1048576 ≤ (download_segment_run [1048577]).1 ∧
    (download_segment_run [1048577]).2 = [] := by
  decide

/-- The chunk loop publishes exactly at the cumulative totals divisible by
1 MiB, and returns the sum of the chunk sizes. -/
lemma segment_progress_loop_spec (chunks : List Nat) (acc : Nat) :
    segment_progress_loop chunks acc =
      (acc + chunks.sum,
       (running_totals chunks acc).filter (fun d => d % (1024 * 1024) == 0)) := by
  induction chunks generalizing acc with
  | nil => simp [segment_progress_loop, running_totals]
  | cons c rest ih =>
    by_cases h : (acc + c) % (1024 * 1024) = 0 <;>
      simp [segment_progress_loop, running_totals, ih, h, List.filter_cons,
        Nat.add_assoc]

/-- Claim C9 amended: a segment worker publishes a progress update after a
chunk exactly when its cumulative byte counter is then an exact multiple of
1 MiB; boundary crossings that do not land exactly on a multiple publish
nothing, and the returned byte count is the sum of the chunk sizes. -/
theorem progress_updates_exact_multiples (chunks : List Nat) :
    (download_segment_run chunks).1 = chunks.sum ∧
    (download_segment_run chunks).2 =
      (running_totals chunks 0).filter (fun d => d % (1024 * 1024) == 0) := by
  rw [download_segment_run, segment_progress_loop_spec]
  simp
